import Mathlib

/-!
# Verification of the Devoo AI photo-editing client

A shallow embedding, in Lean 4, of the core of the browser-based photo
editor: the generation client's response normalizer
(`services/geminiService.ts`), the editor's history manager and generation
orchestrator (`views/EditorView.tsx`), and the credit/session gate
(`App.tsx`).  Pure data flow is translated directly; React state updates
become explicit state-record transitions.
-/

namespace DevooAI

/-! ## Generation client: response model (`services/geminiService.ts`)

The fields of `GenerateContentResponse` that `handleApiResponse` reads.
Optional JS fields become `Option`; JS string-truthiness is modelled by
`strTruthy` (undefined and the empty string are falsy). -/

structure InlineData where
  mimeType : String
  data : String
deriving Repr, DecidableEq

structure Part where
  inlineData : Option InlineData
deriving Repr, DecidableEq

structure Content where
  parts : Option (List Part)
deriving Repr, DecidableEq

structure Candidate where
  content : Option Content
  finishReason : Option String
deriving Repr, DecidableEq

structure PromptFeedback where
  blockReason : Option String
  blockReasonMessage : Option String
deriving Repr, DecidableEq

structure GenerateContentResponse where
  promptFeedback : Option PromptFeedback
  candidates : Option (List Candidate)
  text : Option String
deriving Repr, DecidableEq

/-- JS truthiness of an optional string: `undefined` and `""` are falsy. -/
def strTruthy : Option String → Bool
  | none => false
  | some s => !(s == "")

/-- Truthiness of `response.promptFeedback?.blockReason` (line 45). -/
def blockTruthy (r : GenerateContentResponse) : Bool :=
  strTruthy (r.promptFeedback.bind PromptFeedback.blockReason)

/-- Embedding of `response.candidates?.[0]` (lines 53 and 62). -/
def firstCandidate (r : GenerateContentResponse) : Option Candidate :=
  r.candidates.bind List.head?

/-- Embedding of `response.candidates?.[0]?.content?.parts?.find(part => part.inlineData)`
(line 53): only the first candidate is inspected. -/
def findImagePart (r : GenerateContentResponse) : Option Part :=
  (((firstCandidate r).bind Candidate.content).bind Content.parts).bind
    (List.find? fun p => p.inlineData.isSome)

/-- Embedding of `imagePartFromResponse?.inlineData` (line 55). -/
def imageData (r : GenerateContentResponse) : Option InlineData :=
  (findImagePart r).bind Part.inlineData

/-- Embedding of `response.candidates?.[0]?.finishReason` (line 62). -/
def finishReasonOf (r : GenerateContentResponse) : Option String :=
  (firstCandidate r).bind Candidate.finishReason

/-- The three classified failures thrown by `handleApiResponse`, each
carrying the message string built at the corresponding `throw` site. -/
inductive ApiError where
  | policyBlocked (message : String)
  | abnormalCompletion (message : String)
  | noImageReturned (message : String)
deriving Repr, DecidableEq

/-- Embedding of `handleApiResponse` (`services/geminiService.ts`, lines 40-77).
A thrown `Error` becomes `Except.error`; the returned data URL becomes
`Except.ok`. -/
def handleApiResponse (response : GenerateContentResponse) (context : String) :
    Except ApiError String :=
  if blockTruthy response then
    Except.error (ApiError.policyBlocked
      ("Request was blocked. Reason: "
        ++ (response.promptFeedback.bind PromptFeedback.blockReason).getD "" ++ ". "
        ++ (response.promptFeedback.bind PromptFeedback.blockReasonMessage).getD ""))
  else
    match imageData response with
    | some d => Except.ok ("data:" ++ d.mimeType ++ ";base64," ++ d.data)
    | none =>
      if strTruthy (finishReasonOf response) && (finishReasonOf response != some "STOP") then
        Except.error (ApiError.abnormalCompletion
          ("Image generation for " ++ context ++ " stopped unexpectedly. Reason: "
            ++ (finishReasonOf response).getD "" ++ ". This often relates to safety settings."))
      else
        Except.error (ApiError.noImageReturned
          ("The AI model did not return an image for the " ++ context ++ ". "
            ++ (if strTruthy (response.text.map String.trim) then
                  "The model responded with text: \"" ++ (response.text.map String.trim).getD "" ++ "\""
                else
                  "This can happen due to safety filters or if the request is too complex. Please try rephrasing your prompt to be more direct.")))

/-! ## History manager (`views/EditorView.tsx`)

`history : File[]` with `historyIndex : number` starting at `-1`.  The
image type is a parameter `α`; the orchestrator instantiates it with
`ImageFile`.  Fields not read by any history or generation operation
(tab selection, crop rectangles, object URLs) are omitted. -/

structure Hotspot where
  x : Int
  y : Int
deriving Repr, DecidableEq

structure EditorState (α : Type) where
  history : List α
  historyIndex : Int
  isLoading : Bool
  error : Option String
  prompt : String
  editHotspot : Option Hotspot
  displayHotspot : Option Hotspot
deriving Repr, DecidableEq

variable {α : Type}

/-- Embedding of `const canUndo = historyIndex > 0` (line 87). -/
def canUndo (s : EditorState α) : Bool :=
  decide (0 < s.historyIndex)

/-- Embedding of `const canRedo = historyIndex < history.length - 1` (line 88). -/
def canRedo (s : EditorState α) : Bool :=
  decide (s.historyIndex < (s.history.length : Int) - 1)

/-- Embedding of `const currentImage = history[historyIndex] ?? null` (line 61):
out-of-range indexing (including `-1`) yields `null`. -/
def currentImage (s : EditorState α) : Option α :=
  if 0 ≤ s.historyIndex then s.history.get? s.historyIndex.toNat else none

/-- Modelled from the spec: `addImageToHistory` is imported from
`utils/fileHelpers`, which is not part of the sources; per the spec,
"`append(image)`: truncates the sequence to `[0..index]` inclusive, then
appends `image`; index becomes the new last position." -/
def addImageToHistory (newImage : α) (history : List α) (historyIndex : Int) :
    List α × Int :=
  let newHistory := history.take (historyIndex + 1).toNat ++ [newImage]
  (newHistory, (newHistory.length : Int) - 1)

/-- The `setHistory`/`setHistoryIndex` pair performed by
`addImageToHistory(newImageFile, history, historyIndex, setHistory,
setHistoryIndex)` (line 100), as one state transition. -/
def applyAddImage (newImage : α) (s : EditorState α) : EditorState α :=
  let p := addImageToHistory newImage s.history s.historyIndex
  { s with history := p.1, historyIndex := p.2 }

/-- Embedding of `handleImageUpload` (lines 115-124); the crop/tab resets touch fields
not modelled here. -/
def handleImageUpload (file : α) (s : EditorState α) : EditorState α :=
  { s with error := none, history := [file], historyIndex := 0,
           editHotspot := none, displayHotspot := none }

/-- Embedding of `handleUndo` (lines 218-224). -/
def handleUndo (s : EditorState α) : EditorState α :=
  if canUndo s then
    { s with historyIndex := s.historyIndex - 1,
             editHotspot := none, displayHotspot := none }
  else s

/-- Embedding of `handleRedo` (lines 226-232). -/
def handleRedo (s : EditorState α) : EditorState α :=
  if canRedo s then
    { s with historyIndex := s.historyIndex + 1,
             editHotspot := none, displayHotspot := none }
  else s

/-- Embedding of `handleReset` (lines 234-241). -/
def handleReset (s : EditorState α) : EditorState α :=
  if 0 < s.history.length then
    { s with historyIndex := 0, error := none,
             editHotspot := none, displayHotspot := none }
  else s

/-- Embedding of `handleUploadNew` (lines 243-250). -/
def handleUploadNew (s : EditorState α) : EditorState α :=
  { s with history := [], historyIndex := -1, error := none, prompt := "",
           editHotspot := none, displayHotspot := none }

/-- A fresh editor state over a given history and index, all other fields
at their initial values; used to express concrete scenarios. -/
def mkEditor (history : List α) (historyIndex : Int) : EditorState α :=
  { history := history, historyIndex := historyIndex, isLoading := false,
    error := none, prompt := "", editHotspot := none, displayHotspot := none }

/-! ## Credit/session gate (`App.tsx`) -/

inductive Role where
  | admin
  | user
deriving Repr, DecidableEq

/-- Embedding of `User` (`App.tsx`, lines 37-44); the password field plays no role in
the gate or the debit and is omitted. -/
structure User where
  id : String
  email : String
  credits : Int
  isEnabled : Bool
  role : Role
deriving Repr, DecidableEq

/-- Embedding of `updateUserCredits` (`App.tsx`, lines 127-133):
`Math.max(0, user.credits + creditChange)` on every user whose id
matches. -/
def updateUserCredits (users : List User) (userId : String) (creditChange : Int) :
    List User :=
  users.map fun u =>
    if u.id == userId then { u with credits := max 0 (u.credits + creditChange) } else u

/-- The observable outcome of `checkUserCanGenerate` (`App.tsx`, lines
135-149): the returned boolean, the error message it `setError`s (if
any), and whether it raises the paywall. -/
structure GateOutcome where
  ok : Bool
  error : Option String
  showPaywall : Bool
deriving Repr, DecidableEq

/-- Embedding of `checkUserCanGenerate` (`App.tsx`, lines 135-149). -/
def checkUserCanGenerate : Option User → GateOutcome
  | none => ⟨false, some "You must be logged in to generate images.", false⟩
  | some u =>
    if !u.isEnabled then
      ⟨false, some "Your account has been disabled by an administrator.", false⟩
    else if u.role ≠ Role.admin ∧ u.credits ≤ 0 then
      ⟨false, none, true⟩
    else
      ⟨true, none, false⟩

/-! ## Editor orchestrator (`EditorView.tsx`, `handleGenericGeneration`) -/

/-- An image file: its data URL and its name. -/
structure ImageFile where
  url : String
  name : String
deriving Repr, DecidableEq

/-- Modelled from the spec: `dataURLtoFile` is imported from
`utils/fileHelpers`, which is not part of the sources; per the spec it is
the codec helper converting a data URL into a file blob, here kept as the
pair of the URL and the chosen filename. -/
def dataURLtoFile (dataUrl : String) (filename : String) : ImageFile :=
  ⟨dataUrl, filename⟩

/-- The application state read and written across `App.tsx` and
`EditorView.tsx` by one generation: the user table, the logged-in user's
id, App's error state, the paywall flag, and the editor state. -/
structure AppState where
  users : List User
  currentUserId : Option String
  appError : Option String
  showPaywall : Bool
  editor : EditorState ImageFile
deriving Repr, DecidableEq

/-- Embedding of `const currentUser = users.find(u => u.id === currentUserId)`
(`App.tsx`, line 84). -/
def appCurrentUser (s : AppState) : Option User :=
  s.currentUserId.bind fun cid => s.users.find? fun u => u.id == cid

/-- Embedding of `handleGenericGeneration` (`EditorView.tsx`, lines 90-113) as one
state transition.  The awaited `apiCall()` is the `apiResult` argument: a
data URL on success, or the thrown value's `.message` (`none` when the
thrown value is not an `Error`) on failure.  `Date.now()` in the filename
is the `timestamp` argument.  Returns the new state and the JS return
value (`none` for the early `return;`). -/
def handleGenericGeneration (s : AppState) (apiResult : Except (Option String) String)
    (fileNameStem : String) (timestamp : Nat) : AppState × Option Bool :=
  let g := checkUserCanGenerate (appCurrentUser s)
  let s1 : AppState :=
    { s with appError := match g.error with | some m => some m | none => s.appError,
             showPaywall := s.showPaywall || g.showPaywall }
  if !g.ok || (appCurrentUser s).isNone then (s1, none)
  else
    match apiResult with
    | Except.ok imageUrl =>
      let newImageFile := dataURLtoFile imageUrl
        (fileNameStem ++ "-" ++ toString timestamp ++ ".png")
      let e2 := applyAddImage newImageFile { s1.editor with error := none }
      let users2 :=
        match appCurrentUser s with
        | some u =>
          if u.role ≠ Role.admin then updateUserCredits s1.users u.id (-1) else s1.users
        | none => s1.users
      ({ s1 with users := users2, editor := { e2 with isLoading := false } }, some true)
    | Except.error e =>
      let errorMessage := e.getD "An unknown error occurred."
      ({ s1 with editor := { s1.editor with
          error := some ("Operation failed. " ++ errorMessage),
          isLoading := false } }, some false)

/-! ## Expand pre-processing (`services/geminiService.ts`, lines 284-315)

The canvas-layout arithmetic of `generateExpandedImage`: JS numbers are
modelled as rationals (all values involved are integer multiples of a
half, which JS doubles represent exactly). -/

inductive Direction where
  | top
  | bottom
  | left
  | right
deriving Repr, DecidableEq

structure ExpandLayout where
  newWidth : ℚ
  newHeight : ℚ
  drawX : ℚ
  drawY : ℚ
deriving Repr, DecidableEq

/-- Embedding of `const EXPANSION_FACTOR = 0.5` (line 284). -/
def EXPANSION_FACTOR : ℚ := 1 / 2

/-- The `switch (direction)` of `generateExpandedImage` (lines 285-307):
canvas size and the position at which the original is drawn. -/
def expandLayout (naturalWidth naturalHeight : ℚ) (direction : Direction) :
    ExpandLayout :=
  let base : ExpandLayout := ⟨naturalWidth, naturalHeight, 0, 0⟩
  match direction with
  | Direction.top =>
    { base with newHeight := naturalHeight + naturalHeight * EXPANSION_FACTOR,
                drawY := naturalHeight * EXPANSION_FACTOR }
  | Direction.bottom =>
    { base with newHeight := naturalHeight + naturalHeight * EXPANSION_FACTOR }
  | Direction.left =>
    { base with newWidth := naturalWidth + naturalWidth * EXPANSION_FACTOR,
                drawX := naturalWidth * EXPANSION_FACTOR }
  | Direction.right =>
    { base with newWidth := naturalWidth + naturalWidth * EXPANSION_FACTOR }

/-! ## History invariant (spec section 3) -/

/-- "index is always within `[0, length-1]` when length > 0, or `-1` when
empty". -/
def historyInv (h : List α) (i : Int) : Prop :=
  (h = [] → i = -1) ∧ (h ≠ [] → 0 ≤ i ∧ i < (h.length : Int))

instance (h : List α) (i : Int) [DecidableEq α] : Decidable (historyInv h i) := by
  unfold historyInv
  infer_instance

/-- The credit balance recorded for the first user with the given id. -/
def userCredits (users : List User) (userId : String) : Option Int :=
  (users.find? fun u => u.id == userId).map User.credits

/-! ## Concrete inputs used by witnesses and counterexamples -/

/-- An editor state carrying a selected hotspot while undo is impossible
(index 0). -/
def eNoUndo : EditorState Nat :=
  { history := [0], historyIndex := 0, isLoading := false, error := none,
    prompt := "", editHotspot := some ⟨12, 34⟩, displayHotspot := some ⟨5, 6⟩ }

/-- An editor state in the middle of a three-element history with a
selected hotspot. -/
def eMid : EditorState Nat :=
  { history := [0, 1, 2], historyIndex := 1, isLoading := false, error := none,
    prompt := "", editHotspot := some ⟨12, 34⟩, displayHotspot := some ⟨5, 6⟩ }

/-- The sample standard user `bob` of the initial user table
(`App.tsx`, line 48). -/
def bob : User := ⟨"u002", "bob@example.com", 15, true, Role.user⟩

/-- An admin with balance zero, exercising the balance-check bypass. -/
def alice0 : User := ⟨"u001", "alice@example.com", 0, true, Role.admin⟩

/-- The sample out-of-credits standard user (`App.tsx`, line 49). -/
def charlie : User := ⟨"u003", "charlie@example.com", 0, true, Role.user⟩

/-- The sample disabled user (`App.tsx`, line 50). -/
def diana : User := ⟨"u004", "diana@example.com", 1, false, Role.user⟩

/-- An application state with `bob` logged in and one uploaded image. -/
def sBob : AppState :=
  { users := [bob], currentUserId := some "u002", appError := none,
    showPaywall := false, editor := mkEditor [⟨"data:o", "orig.png"⟩] 0 }

/-- A response part carrying inline image data. -/
def imagePart : Part := ⟨some ⟨"image/png", "QUJD"⟩⟩

/-- A response carrying both a block reason and an embedded image. -/
def rBlockedWithImage : GenerateContentResponse :=
  { promptFeedback := some ⟨some "SAFETY", some "Blocked for safety."⟩,
    candidates := some [⟨some ⟨some [imagePart]⟩, some "STOP"⟩],
    text := none }

/-- A response with finish reason "SAFETY" and no image anywhere. -/
def rSafetyNoImage : GenerateContentResponse :=
  { promptFeedback := none,
    candidates := some [⟨some ⟨some [⟨none⟩]⟩, some "SAFETY"⟩],
    text := none }

/-- A response whose first candidate has no image but whose second
candidate does. -/
def rLaterCandidateImage : GenerateContentResponse :=
  { promptFeedback := none,
    candidates := some
      [⟨some ⟨some [⟨none⟩]⟩, some "STOP"⟩,
       ⟨some ⟨some [imagePart]⟩, some "STOP"⟩],
    text := some "hello" }

/-! ## Theorems -/

/-- C6: for every source image of width `W` and height `H`, the Expand
pre-processing with direction "left" composes a canvas of width `W*1.5`
and height `H` with the original drawn at `x = W*0.5`; the factor is the
fixed constant `0.5` and the direction determines which edge the original
sits flush against (direction "top" draws the original at the bottom,
leaving blank space above). -/
theorem expandLayout_spec (W H : ℚ) :
    EXPANSION_FACTOR = 1 / 2 ∧
    (expandLayout W H Direction.left).newWidth = W * (3 / 2) ∧
    (expandLayout W H Direction.left).newHeight = H ∧
    (expandLayout W H Direction.left).drawX = W * (1 / 2) ∧
    (expandLayout W H Direction.left).drawY = 0 ∧
    (expandLayout W H Direction.right).newWidth = W * (3 / 2) ∧
    (expandLayout W H Direction.right).drawX = 0 ∧
    (expandLayout W H Direction.top).newHeight = H * (3 / 2) ∧
    (expandLayout W H Direction.top).drawY = H * (1 / 2) ∧
    (expandLayout W H Direction.top).drawY + H = (expandLayout W H Direction.top).newHeight ∧
    (expandLayout W H Direction.bottom).newHeight = H * (3 / 2) ∧
    (expandLayout W H Direction.bottom).drawY = 0 := by
  refine ⟨rfl, ?_, rfl, ?_, rfl, ?_, rfl, ?_, ?_, ?_, ?_, rfl⟩ <;>
    simp [expandLayout, EXPANSION_FACTOR] <;> ring

/-- C1: the response normalizer classifies in this fixed order: a carried
block reason fails as `policyBlocked` even when an image payload is
present; otherwise a found embedded image succeeds as a data URL;
otherwise a non-normal finish reason fails as `abnormalCompletion`, not
`noImageReturned`; otherwise it fails as `noImageReturned`. -/
theorem handleApiResponse_classification (r : GenerateContentResponse) (ctx : String) :
    (blockTruthy r = true →
      ∃ m, handleApiResponse r ctx = Except.error (ApiError.policyBlocked m)) ∧
    (blockTruthy r = false → ∀ d, imageData r = some d →
      handleApiResponse r ctx = Except.ok ("data:" ++ d.mimeType ++ ";base64," ++ d.data)) ∧
    (blockTruthy r = false → imageData r = none →
      ∀ fr, finishReasonOf r = some fr → fr ≠ "" → fr ≠ "STOP" →
      ∃ m, handleApiResponse r ctx = Except.error (ApiError.abnormalCompletion m)) ∧
    (blockTruthy r = false → imageData r = none →
      (∀ fr, finishReasonOf r = some fr → fr = "" ∨ fr = "STOP") →
      ∃ m, handleApiResponse r ctx = Except.error (ApiError.noImageReturned m)) := by
  refine ⟨?_, ?_, ?_, ?_⟩
  · intro hb
    simp [handleApiResponse, hb]
  · intro hb d hd
    simp [handleApiResponse, hb, hd]
  · intro hb hi fr hfr h1 h2
    simp [handleApiResponse, hb, hi, hfr, strTruthy, h1, h2]
  · intro hb hi hfr
    rcases hF : finishReasonOf r with _ | fr
    · simp [handleApiResponse, hb, hi, hF, strTruthy]
    · rcases hfr fr hF with h | h <;> subst h <;>
        simp [handleApiResponse, hb, hi, hF, strTruthy]

/-- C1 witness: a blocked response that also carries an image classifies
as `policyBlocked`; a "SAFETY"-finished response with no image classifies
as `abnormalCompletion`. -/
theorem handleApiResponse_classification_witness :
    (blockTruthy rBlockedWithImage = true ∧ imageData rBlockedWithImage ≠ none ∧
      ∃ m, handleApiResponse rBlockedWithImage "edit" = Except.error (ApiError.policyBlocked m)) ∧
    (blockTruthy rSafetyNoImage = false ∧ imageData rSafetyNoImage = none ∧
      finishReasonOf rSafetyNoImage = some "SAFETY" ∧
      ∃ m, handleApiResponse rSafetyNoImage "filter" = Except.error (ApiError.abnormalCompletion m)) :=
  ⟨⟨by decide, by decide,
    (handleApiResponse_classification rBlockedWithImage "edit").1 (by decide)⟩,
   ⟨by decide, by decide, by decide,
    (handleApiResponse_classification rSafetyNoImage "filter").2.2.1 (by decide) (by decide)
      "SAFETY" (by decide) (by decide) (by decide)⟩⟩

/-- C10: the normalizer inspects only the first candidate: whenever the
first candidate contains no inline image data (and the response is not
blocked), the call fails as `abnormalCompletion` or `noImageReturned`,
whatever the later candidates hold. -/
theorem handleApiResponse_firstCandidateOnly (r : GenerateContentResponse) (ctx : String)
    (hb : blockTruthy r = false) (hi : findImagePart r = none) :
    (∃ m, handleApiResponse r ctx = Except.error (ApiError.abnormalCompletion m)) ∨
    (∃ m, handleApiResponse r ctx = Except.error (ApiError.noImageReturned m)) := by
  have hi' : imageData r = none := by simp [imageData, hi]
  cases h : (strTruthy (finishReasonOf r) && (finishReasonOf r != some "STOP"))
  · refine Or.inr ?_
    simp [handleApiResponse, hb, hi', h]
  · refine Or.inl ?_
    simp [handleApiResponse, hb, hi', h]

/-- C10 witness: a response whose first candidate has no image but whose
second candidate does still fails. -/
theorem handleApiResponse_firstCandidateOnly_witness :
    findImagePart rLaterCandidateImage = none ∧
    ((((rLaterCandidateImage.candidates.getD []).get? 1).bind Candidate.content).bind
        Content.parts).bind (List.find? fun p => p.inlineData.isSome) ≠ none ∧
    ((∃ m, handleApiResponse rLaterCandidateImage "edit" = Except.error (ApiError.abnormalCompletion m)) ∨
     (∃ m, handleApiResponse rLaterCandidateImage "edit" = Except.error (ApiError.noImageReturned m))) :=
  ⟨by decide, by decide,
   handleApiResponse_firstCandidateOnly rLaterCandidateImage "edit" (by decide) (by decide)⟩

/-- C2: appending at index `i` (with `0 ≤ i < length`) truncates the
sequence to `s[0..i]` inclusive and appends the image, the index becoming
the new last position; from history `[A,B,C]` at index 2, `undo()`
followed by `append(D)` yields `[A,B,D]` at index 2 with `C`
unreachable. -/
theorem addImageToHistory_truncates (s : List α) (i : Int) (img : α)
    (h0 : 0 ≤ i) (h1 : i < (s.length : Int)) :
    ((addImageToHistory img s i).1 = s.take (i.toNat + 1) ++ [img] ∧
     (addImageToHistory img s i).2 = i + 1 ∧
     (addImageToHistory img s i).2 = ((addImageToHistory img s i).1.length : Int) - 1) ∧
    (∀ a b c d : α, c ∉ ([a, b, d] : List α) →
      (applyAddImage d (handleUndo (mkEditor [a, b, c] 2))).history = [a, b, d] ∧
      (applyAddImage d (handleUndo (mkEditor [a, b, c] 2))).historyIndex = 2 ∧
      c ∉ (applyAddImage d (handleUndo (mkEditor [a, b, c] 2))).history) := by
  constructor
  · have htn : (i + 1).toNat = i.toNat + 1 := by omega
    have hlen : (s.take (i.toNat + 1)).length = i.toNat + 1 := by
      rw [List.length_take]
      omega
    refine ⟨by simp [addImageToHistory, htn], ?_, ?_⟩
    · simp only [addImageToHistory, htn, List.length_append, hlen, List.length_cons,
        List.length_nil]
      omega
    · simp [addImageToHistory]
  · intro a b c d hc
    refine ⟨rfl, rfl, ?_⟩
    have hh : (applyAddImage d (handleUndo (mkEditor [a, b, c] 2))).history = [a, b, d] := rfl
    rw [hh]
    exact hc

/-- C2 witness: concrete instance on `[10,20,30]` at index 1, and the
`[0,1,2]` undo-append scenario. -/
theorem addImageToHistory_truncates_witness :
    ((addImageToHistory 40 [10, 20, 30] 1).1
        = ([10, 20, 30] : List Nat).take ((1 : Int).toNat + 1) ++ [40]) ∧
    addImageToHistory 40 ([10, 20, 30] : List Nat) 1 = ([10, 20, 40], 2) ∧
    (2 : Nat) ∉ (applyAddImage 3 (handleUndo (mkEditor [0, 1, 2] 2))).history :=
  ⟨(addImageToHistory_truncates [10, 20, 30] 1 40 (by decide) (by decide)).1.1,
   by decide,
   ((addImageToHistory_truncates ([0, 1, 2] : List Nat) 1 3 (by decide) (by decide)).2
      0 1 2 3 (by decide)).2.2⟩

/-- C5: upload, append, undo, redo, reset-to-original and new-session
clear all preserve the invariant that the index lies in `[0, length-1]`
when the sequence is non-empty and is `-1` when empty, and all keep the
original upload at position 0. -/
theorem history_ops_preserve_inv (s : EditorState α)
    (hInv : historyInv s.history s.historyIndex) :
    (historyInv (handleUndo s).history (handleUndo s).historyIndex ∧
      (handleUndo s).history.head? = s.history.head?) ∧
    (historyInv (handleRedo s).history (handleRedo s).historyIndex ∧
      (handleRedo s).history.head? = s.history.head?) ∧
    (historyInv (handleReset s).history (handleReset s).historyIndex ∧
      (handleReset s).history.head? = s.history.head?) ∧
    (historyInv (handleUploadNew s).history (handleUploadNew s).historyIndex ∧
      (handleUploadNew s).history = []) ∧
    (∀ f : α, historyInv (handleImageUpload f s).history (handleImageUpload f s).historyIndex ∧
      (handleImageUpload f s).history.head? = some f) ∧
    (∀ img : α, historyInv (applyAddImage img s).history (applyAddImage img s).historyIndex ∧
      (s.history ≠ [] → (applyAddImage img s).history.head? = s.history.head?)) := by
  obtain ⟨hE, hNE⟩ := hInv
  refine ⟨?_, ?_, ?_, ?_, ?_, ?_⟩
  · simp only [handleUndo, canUndo, decide_eq_true_eq]
    split_ifs with h
    · dsimp only
      refine ⟨⟨fun he => ?_, fun hne => ?_⟩, rfl⟩
      · have := hE he
        omega
      · have := hNE hne
        omega
    · exact ⟨⟨hE, hNE⟩, rfl⟩
  · simp only [handleRedo, canRedo, decide_eq_true_eq]
    split_ifs with h
    · dsimp only
      refine ⟨⟨fun he => ?_, fun hne => ?_⟩, rfl⟩
      · rw [he] at h
        simp at h
        have := hE he
        omega
      · have := hNE hne
        omega
    · exact ⟨⟨hE, hNE⟩, rfl⟩
  · simp only [handleReset]
    split_ifs with h
    · dsimp only
      refine ⟨⟨fun he => ?_, fun hne => ?_⟩, rfl⟩
      · rw [he] at h
        simp at h
      · exact ⟨by omega, by omega⟩
    · exact ⟨⟨hE, hNE⟩, rfl⟩
  · exact ⟨⟨fun _ => rfl, fun hne => absurd rfl hne⟩, rfl⟩
  · intro f
    refine ⟨⟨fun he => ?_, fun _ => ?_⟩, rfl⟩
    · simp [handleImageUpload] at he
    · dsimp only [handleImageUpload]
      simp only [List.length_cons, List.length_nil]
      omega
  · intro img
    constructor
    · refine ⟨fun he => ?_, fun _ => ?_⟩
      · simp [applyAddImage, addImageToHistory] at he
      · dsimp only [applyAddImage, addImageToHistory]
        simp only [List.length_append, List.length_cons, List.length_nil]
        omega
    · intro hne
      obtain ⟨x, xs, hx⟩ := List.exists_cons_of_ne_nil hne
      have h0 : 0 ≤ s.historyIndex := (hNE hne).1
      have htn : (s.historyIndex + 1).toNat = s.historyIndex.toNat + 1 := by omega
      simp [applyAddImage, addImageToHistory, htn, hx]

/-- C5 witness: the invariant holds for a concrete two-element history at
index 1 and is preserved by undo and append there. -/
theorem history_ops_preserve_inv_witness :
    historyInv eMid.history eMid.historyIndex ∧
    historyInv (handleUndo eMid).history (handleUndo eMid).historyIndex ∧
    historyInv (applyAddImage 7 eMid).history (applyAddImage 7 eMid).historyIndex :=
  ⟨by decide,
   ((history_ops_preserve_inv eMid (by decide)).1).1,
   ((history_ops_preserve_inv eMid (by decide)).2.2.2.2.2 7).1⟩

/-- C8: on a non-empty history, reset-to-original sets the index to 0
without shrinking the sequence; from `[A,B,C]` at index 2 it yields index
0 and a subsequent `redo()` restores `B`. -/
theorem handleReset_keeps_sequence (s : EditorState α) (h : s.history ≠ []) :
    (handleReset s).history = s.history ∧
    (handleReset s).historyIndex = 0 ∧
    (∀ a b c : α,
      (handleReset (mkEditor [a, b, c] 2)).historyIndex = 0 ∧
      (handleReset (mkEditor [a, b, c] 2)).history = [a, b, c] ∧
      currentImage (handleRedo (handleReset (mkEditor [a, b, c] 2))) = some b) := by
  refine ⟨?_, ?_, fun a b c => ⟨rfl, rfl, rfl⟩⟩
  · unfold handleReset
    split <;> rfl
  · simp [handleReset, List.length_pos, h]

/-- C8 witness: concrete instance on `[5,6]` at index 1. -/
theorem handleReset_keeps_sequence_witness :
    (handleReset (mkEditor [5, 6] 1 : EditorState Nat)).history = [5, 6] ∧
    (handleReset (mkEditor [5, 6] 1 : EditorState Nat)).historyIndex = 0 ∧
    currentImage (handleRedo (handleReset (mkEditor ([10, 20, 30] : List Nat) 2))) = some 20 :=
  ⟨(handleReset_keeps_sequence (mkEditor [5, 6] 1) (by decide)).1,
   (handleReset_keeps_sequence (mkEditor [5, 6] 1) (by decide)).2.1,
   ((handleReset_keeps_sequence (mkEditor ([10, 20, 30] : List Nat) 2) (by decide)).2.2
      10 20 30).2.2⟩

/-- C9 counterexample: `handleUndo` called at index 0 (a no-op navigation)
leaves the previously selected hotspots in place, refuting "every undo()
call clears the stored edit hotspot and display hotspot". -/
theorem handleUndo_no_clear_counterexample :
    (handleUndo eNoUndo).editHotspot = some ⟨12, 34⟩ ∧
    (handleUndo eNoUndo).displayHotspot = some ⟨5, 6⟩ ∧
    ¬((handleUndo eNoUndo).editHotspot = none ∧ (handleUndo eNoUndo).displayHotspot = none) := by
  decide

/-- C9 amended: every effective undo (index > 0), effective redo
(index < length-1), and reset on a non-empty history clears both the edit
hotspot and the display hotspot, not only a successful Edit commit. -/
theorem nav_clears_hotspots (s : EditorState α) :
    (canUndo s = true →
      (handleUndo s).editHotspot = none ∧ (handleUndo s).displayHotspot = none) ∧
    (canRedo s = true →
      (handleRedo s).editHotspot = none ∧ (handleRedo s).displayHotspot = none) ∧
    (s.history ≠ [] →
      (handleReset s).editHotspot = none ∧ (handleReset s).displayHotspot = none) := by
  refine ⟨fun h => ?_, fun h => ?_, fun h => ?_⟩ <;>
    simp [handleUndo, handleRedo, handleReset, h, List.length_pos]

/-- C9 witness: concrete instance on a mid-history state where undo, redo
and reset are all effective. -/
theorem nav_clears_hotspots_witness :
    canUndo eMid = true ∧ canRedo eMid = true ∧ eMid.history ≠ [] ∧
    (handleUndo eMid).editHotspot = none ∧ (handleRedo eMid).displayHotspot = none ∧
    (handleReset eMid).editHotspot = none :=
  ⟨by decide, by decide, by decide,
   ((nav_clears_hotspots eMid).1 (by decide)).1,
   ((nav_clears_hotspots eMid).2.1 (by decide)).2,
   ((nav_clears_hotspots eMid).2.2 (by decide)).1⟩

/-- A passing gate implies an enabled account and, for non-admins, a
positive balance. -/
theorem gate_ok_spec (u : User) (h : (checkUserCanGenerate (some u)).ok = true) :
    u.isEnabled = true ∧ (u.role = Role.admin ∨ 0 < u.credits) := by
  simp only [checkUserCanGenerate] at h
  by_cases h1 : u.isEnabled = true
  · refine ⟨h1, ?_⟩
    by_cases hr : u.role = Role.admin
    · exact Or.inl hr
    · right
      by_contra hc
      push_neg at hc
      rw [if_neg (by simp [h1]), if_pos (⟨hr, hc⟩ : u.role ≠ Role.admin ∧ u.credits ≤ 0)] at h
      simp at h
  · rw [if_pos (by simp [h1])] at h
    simp at h

/-- Lemma: `updateUserCredits` rewrites the credits of exactly the users whose
id matches, leaving ids and order in place. -/
theorem find?_updateUserCredits (users : List User) (uid : String) (c : Int) :
    ((updateUserCredits users uid c).find? fun v => v.id == uid)
      = (users.find? fun v => v.id == uid).map
          fun v => { v with credits := max 0 (v.credits + c) } := by
  induction users with
  | nil => rfl
  | cons v vs ih =>
    simp only [updateUserCredits, List.map_cons] at ih ⊢
    by_cases hv : (v.id == uid) = true
    · simp [List.find?, hv]
    · have hvf : (v.id == uid) = false := by simpa using hv
      rw [if_neg hv]
      simp only [List.find?, hvf]
      exact ih

/-- A user with a non-matching id passes through `updateUserCredits`
unchanged. -/
theorem mem_updateUserCredits_of_ne (users : List User) (uid : String) (c : Int)
    (v : User) (hv : v ∈ users) (hne : v.id ≠ uid) :
    v ∈ updateUserCredits users uid c := by
  have hb : (v.id == uid) = false := by simpa using hne
  have key := List.mem_map_of_mem
    (fun u => if (u.id == uid) = true then { u with credits := max 0 (u.credits + c) } else u)
    hv
  simp only [hb, Bool.false_eq_true, if_false] at key
  simpa [updateUserCredits] using key

/-- C4: the gate denies with distinct signals: no active session and a
disabled account produce distinct error messages, while an enabled
standard user with zero-or-negative balance is denied with the paywall
trigger and no plain error message; an enabled admin is permitted
regardless of balance. -/
theorem checkUserCanGenerate_spec (u : User) :
    checkUserCanGenerate none
      = ⟨false, some "You must be logged in to generate images.", false⟩ ∧
    (u.isEnabled = false → checkUserCanGenerate (some u)
      = ⟨false, some "Your account has been disabled by an administrator.", false⟩) ∧
    (u.isEnabled = true → u.role = Role.user → u.credits ≤ 0 →
      checkUserCanGenerate (some u) = ⟨false, none, true⟩) ∧
    (u.isEnabled = true → u.role = Role.admin →
      checkUserCanGenerate (some u) = ⟨true, none, false⟩) := by
  refine ⟨rfl, fun h => ?_, fun h1 h2 h3 => ?_, fun h1 h2 => ?_⟩
  · simp [checkUserCanGenerate, h]
  · simp [checkUserCanGenerate, h1, h2, h3]
  · simp [checkUserCanGenerate, h1, h2]

/-- C4 witness: an enabled standard user with zero credits is denied with
the paywall; an admin with zero credits is permitted; a disabled user gets
the disabled-account message. -/
theorem checkUserCanGenerate_spec_witness :
    checkUserCanGenerate (some charlie) = ⟨false, none, true⟩ ∧
    checkUserCanGenerate (some alice0) = ⟨true, none, false⟩ ∧
    checkUserCanGenerate (some diana)
      = ⟨false, some "Your account has been disabled by an administrator.", false⟩ :=
  ⟨(checkUserCanGenerate_spec charlie).2.2.1 (by decide) (by decide) (by decide),
   (checkUserCanGenerate_spec alice0).2.2.2 (by decide) (by decide),
   (checkUserCanGenerate_spec diana).2.1 (by decide)⟩

/-- C3: with the gate passing, a committed generation appends the result
image to the history and debits exactly one credit from a non-privileged
session (the balance stays clamped at zero or above; admins are not
debited, other users untouched), while a failed generation changes
neither the history nor any balance. -/
theorem generation_append_debit_atomic (s : AppState) (u : User) (stem url : String) (ts : Nat)
    (hu : appCurrentUser s = some u)
    (hok : (checkUserCanGenerate (appCurrentUser s)).ok = true) :
    ((handleGenericGeneration s (Except.ok url) stem ts).1.editor.history
        = s.editor.history.take (s.editor.historyIndex + 1).toNat
            ++ [dataURLtoFile url (stem ++ "-" ++ toString ts ++ ".png")]) ∧
    ((handleGenericGeneration s (Except.ok url) stem ts).2 = some true) ∧
    (u.role ≠ Role.admin →
      userCredits (handleGenericGeneration s (Except.ok url) stem ts).1.users u.id
          = some (u.credits - 1) ∧
      0 ≤ u.credits - 1) ∧
    (u.role = Role.admin →
      (handleGenericGeneration s (Except.ok url) stem ts).1.users = s.users) ∧
    (∀ v ∈ s.users, v.id ≠ u.id →
      v ∈ (handleGenericGeneration s (Except.ok url) stem ts).1.users) ∧
    (∀ e, (handleGenericGeneration s (Except.error e) stem ts).1.editor.history
            = s.editor.history ∧
          (handleGenericGeneration s (Except.error e) stem ts).1.editor.historyIndex
            = s.editor.historyIndex ∧
          (handleGenericGeneration s (Except.error e) stem ts).1.users = s.users) := by
  have hok' : (checkUserCanGenerate (some u)).ok = true := by rw [← hu]; exact hok
  obtain ⟨cid, hcid, hfind⟩ :
      ∃ cid, s.currentUserId = some cid ∧ (s.users.find? fun v => v.id == cid) = some u := by
    rcases hc : s.currentUserId with _ | cid
    · rw [appCurrentUser, hc] at hu
      simp at hu
    · rw [appCurrentUser, hc] at hu
      exact ⟨cid, rfl, hu⟩
  have hid : u.id = cid := by
    have := List.find?_some hfind
    simpa using this
  have hfind' : (s.users.find? fun v => v.id == u.id) = some u := by
    rw [hid]
    exact hfind
  refine ⟨?_, ?_, ?_, ?_, ?_, ?_⟩
  · simp [handleGenericGeneration, hu, hok', applyAddImage, addImageToHistory]
  · simp [handleGenericGeneration, hu, hok']
  · intro hr
    have hcred : 0 < u.credits := by
      rcases (gate_ok_spec u hok').2 with h | h
      · exact absurd h hr
      · exact h
    constructor
    · simp only [handleGenericGeneration, hu, hok']
      simp [hr, userCredits, find?_updateUserCredits, hfind']
      omega
    · omega
  · intro hr
    simp [handleGenericGeneration, hu, hok', hr]
  · intro v hv hne
    by_cases hr : u.role = Role.admin
    · simpa [handleGenericGeneration, hu, hok', hr] using hv
    · simp only [handleGenericGeneration, hu, hok']
      simp [hr]
      exact mem_updateUserCredits_of_ne s.users u.id (-1) v hv hne
  · intro e
    refine ⟨?_, ?_, ?_⟩ <;> simp [handleGenericGeneration, hu, hok']

/-- C3 witness: with `bob` (15 credits, standard role) logged in, a
committed generation appends and leaves 14 credits; a failed one changes
nothing. -/
theorem generation_append_debit_atomic_witness :
    appCurrentUser sBob = some bob ∧
    (checkUserCanGenerate (appCurrentUser sBob)).ok = true ∧
    (userCredits (handleGenericGeneration sBob (Except.ok "data:new") "edited" 5).1.users bob.id
        = some (bob.credits - 1) ∧
      0 ≤ bob.credits - 1) ∧
    (handleGenericGeneration sBob (Except.error (some "boom")) "edited" 5).1.users = sBob.users :=
  ⟨by decide, by decide,
   (generation_append_debit_atomic sBob bob "edited" "data:new" 5 (by decide)
      (by decide)).2.2.1 (by decide),
   ((generation_append_debit_atomic sBob bob "edited" "data:new" 5 (by decide)
      (by decide)).2.2.2.2.2 (some "boom")).2.2⟩

/-- C7 counterexample: with the failure reason "boom", the surfaced
message is "Operation failed. boom", not the unmodified "boom". -/
theorem failure_reason_modified_counterexample :
    (handleGenericGeneration sBob (Except.error (some "boom")) "edited" 0).1.editor.error
      = some ("Operation failed. " ++ "boom") ∧
    (handleGenericGeneration sBob (Except.error (some "boom")) "edited" 0).1.editor.error
      ≠ some "boom" := by
  decide

/-- C7 amended: on a failed generation (gate passing), the stored
user-facing message is the failure reason with the fixed prefix
"Operation failed. " prepended — the reason text itself unmodified — and
the call reports failure. -/
theorem failure_reason_prefixed (s : AppState) (msg stem : String) (ts : Nat)
    (hok : (checkUserCanGenerate (appCurrentUser s)).ok = true) :
    (handleGenericGeneration s (Except.error (some msg)) stem ts).1.editor.error
      = some ("Operation failed. " ++ msg) ∧
    (handleGenericGeneration s (Except.error (some msg)) stem ts).2 = some false := by
  have hs : (appCurrentUser s).isNone = false := by
    cases h : appCurrentUser s
    · rw [h] at hok
      simp [checkUserCanGenerate] at hok
    · rfl
  constructor <;> simp [handleGenericGeneration, hok, hs]

/-- C7 witness: concrete failed generation with reason "net down". -/
theorem failure_reason_prefixed_witness :
    (checkUserCanGenerate (appCurrentUser sBob)).ok = true ∧
    (handleGenericGeneration sBob (Except.error (some "net down")) "filtered" 1).1.editor.error
      = some ("Operation failed. " ++ "net down") ∧
    (handleGenericGeneration sBob (Except.error (some "net down")) "filtered" 1).2 = some false :=
  ⟨by decide,
   (failure_reason_prefixed sBob "net down" "filtered" 1 (by decide)).1,
   (failure_reason_prefixed sBob "net down" "filtered" 1 (by decide)).2⟩

end DevooAI
